import Mathlib

/-!
# Verification of the runtime payload cache (Nitro payload-cache plugin + Nuxt serializer plugin)

Shallow embedding of the two components of the payload cache core:

* the **Payload Cache Gate** (Nitro plugin): the `render:before` hook that serves
  cached `_payload.json` responses and the `render:response` hook that populates
  the cache, together with its helpers `getRouteFromPayloadUrl`, `getCacheKey`,
  `isISRRoute` and `cachePayload`;
* the **Payload Serializer** (Nuxt server plugin): the `app:rendered` hook that
  serializes `{data, prerenderedAt}` and stashes the artifact on the request
  context slot `_cachedPayloadResponse`.

Timestamps are modelled in integer milliseconds (`Int`), as produced by
`Date.now()`.  The source computes `age = (Date.now() - cachedAt) / 1000` in
floating point and compares `age > PAYLOAD_CACHE_STALE_TTL`; for integer
millisecond inputs this comparison is equivalent to the exact integer
comparison `now - cachedAt > PAYLOAD_CACHE_STALE_TTL * 1000`, which is what the
embedding uses (division by 1000 of an integer below 2^53 is correctly rounded,
and 120 is exactly representable, so the rounded quotient is > 120 iff the
exact quotient is).
-/

namespace PayloadCache

/-! ## Path helpers (part_000 lines 17, 46-57, 137-138) -/

/-- The characters of a JS string up to (excluding) the first `?`; if there is
no `?` this is the whole string.  Models both `url.replace(/\?.*$/, '')` and
the `[^?]*` portion of `PAYLOAD_URL_RE`. -/
def takeUntilQuery (l : List Char) : List Char :=
  l.takeWhile (fun c => c != '?')

/-- `url.replace(/\?.*$/, '')`. -/
def stripQuery (s : String) : String :=
  String.mk (takeUntilQuery s.toList)

/-- Helper: is the first list a suffix of the second (by characters)? -/
def isSuffixL (suf l : List Char) : Bool :=
  l.reverse.take suf.length == suf.reverse

/-- `PAYLOAD_URL_RE = /^[^?]*\/_payload\.json(?:\?.*)?$/` — the path, up to the
first `?`, ends with `/_payload.json`. -/
def isPayloadUrl (path : String) : Bool :=
  isSuffixL "/_payload.json".toList (takeUntilQuery path.toList)

/-- Index of the last `/` in a character list, if any (JS `lastIndexOf('/')`,
with `none` for `-1`). -/
def lastSlashIdxAux : List Char → Nat → Option Nat → Option Nat
  | [], _, acc => acc
  | c :: cs, i, acc => lastSlashIdxAux cs (i + 1) (if c = '/' then some i else acc)

def lastSlashIdx (l : List Char) : Option Nat :=
  lastSlashIdxAux l 0 none

/-- `getRouteFromPayloadUrl` (part_000 lines 46-49):
`withoutQuery.substring(0, withoutQuery.lastIndexOf('/')) || '/'`.
`substring(0, -1)` and `substring(0, 0)` are both `""`, which is falsy, so the
result falls back to `"/"` exactly when the last slash is absent or at index
0. -/
def getRouteFromPayloadUrl (url : String) : String :=
  let w := takeUntilQuery url.toList
  match lastSlashIdx w with
  | none => "/"
  | some i => if i = 0 then "/" else String.mk (w.take i)

/-- `.replace(/\/$/, '')` — remove a single trailing slash if present. -/
def stripTrailingSlash (s : String) : String :=
  match s.toList.getLast? with
  | some '/' => String.mk s.toList.dropLast
  | _ => s

/-- Route-path normalization for HTML requests (part_000 lines 137-138):
strip the query, then strip a trailing slash unless the path is the root. -/
def htmlRoutePath (path : String) : String :=
  let pathWithoutQuery := stripQuery path
  if pathWithoutQuery = "/" then "/" else stripTrailingSlash pathWithoutQuery

/-- `getCacheKey` (part_000 lines 55-57). -/
def getCacheKey (buildId routePath : String) : String :=
  buildId ++ ":" ++ routePath

/-! ## TTL constants (part_000 lines 20-28) -/

/-- Default TTL for cached payloads, in seconds. -/
def PAYLOAD_CACHE_TTL : Int := 60

/-- Grace period beyond TTL where stale payloads are still served, in seconds. -/
def PAYLOAD_CACHE_STALE_TTL : Int := PAYLOAD_CACHE_TTL * 2

/-! ## Data model -/

/-- `CachedPayload` (part_000 lines 30-36): the persisted cache entry. -/
structure CachedPayload where
  body : String
  statusCode : Nat
  headers : List (String × String)
  cachedAt : Int
  buildId : String
deriving DecidableEq

/-- The stashed artifact `event.context._cachedPayloadResponse`
(part_000 lines 181-185 / part_003 lines 45-52). -/
structure StashedArtifact where
  body : String
  statusCode : Nat
  headers : List (String × String)
deriving DecidableEq

/-- The parts of an `H3Event` the Gate reads: the request path, the matched
route rules (`isr` / `cache`), and the context slot holding a stashed
artifact. -/
structure GateEvent where
  path : String
  isr : Bool
  cache : Bool
  stashed : Option StashedArtifact
deriving DecidableEq

/-- `isISRRoute` (part_000 lines 62-65): `!!(rules.isr || rules.cache)`. -/
def isISRRoute (e : GateEvent) : Bool :=
  e.isr || e.cache

/-- A response body is either a string or something else
(`typeof response.body !== 'string'`). -/
inductive ResponseBody where
  | str (s : String)
  | nonString
deriving DecidableEq

/-- The rendered response seen by the `render:response` hook: the status code
may be absent (`!response.statusCode`), and `headers` may be absent
(`response.headers?.`). -/
structure RenderResponse where
  statusCode : Option Nat
  body : ResponseBody
  headers : Option (List (String × String))
deriving DecidableEq

/-- The response synthesized on a cache hit (part_000 lines 95-100). -/
structure SynthResponse where
  body : String
  statusCode : Nat
  statusMessage : String
  headers : List (String × String)
deriving DecidableEq

/-- Result of `storage.getItem`: a value (possibly absent), or a thrown
error. -/
inductive LookupResult where
  | ok (v : Option CachedPayload)
  | err
deriving DecidableEq

/-! ## Phase A — `render:before` (part_000 lines 70-108) -/

/-- The `render:before` hook: returns `some` synthesized response exactly when
it sets `ctx.response` (a valid cache hit), and `none` when it falls through
to the normal render (non-payload request, miss, build mismatch, stale entry,
or a lookup error caught by the `try`/`catch`). -/
def renderBefore (buildId : String) (now : Int) (path : String)
    (lookup : String → LookupResult) : Option SynthResponse :=
  if isPayloadUrl path then
    match lookup (getCacheKey buildId (getRouteFromPayloadUrl path)) with
    | .err => none
    | .ok none => none
    | .ok (some cached) =>
      if cached.buildId ≠ buildId then none
      else if now - cached.cachedAt > PAYLOAD_CACHE_STALE_TTL * 1000 then none
      else some { body := cached.body, statusCode := cached.statusCode,
                  statusMessage := "OK", headers := cached.headers }
  else none

/-- A data-only request end to end: if `render:before` set a response, Nitro
skips the render function entirely and that response is delivered; otherwise
the render pipeline runs and its response `render` is delivered.  The boolean
records whether the render pipeline ran. -/
def handleDataRequest (buildId : String) (now : Int) (path : String)
    (lookup : String → LookupResult) (render : SynthResponse) :
    SynthResponse × Bool :=
  match renderBefore buildId now path lookup with
  | some r => (r, false)
  | none => (render, true)

/-! ## Phase B — `render:response` (part_000 lines 113-175) -/

/-- The fixed headers written for cached payloads (part_000 lines 127-130 and
part_003 lines 48-51). -/
def payloadHeaders : List (String × String) :=
  [("content-type", "application/json;charset=utf-8"), ("x-powered-by", "Nuxt")]

/-- `cachePayload` (part_000 lines 149-175): the entry it schedules for the
store is the payload spread together with `cachedAt` and `buildId`. -/
def cachePayloadEntry (buildId : String) (now : Int) (p : StashedArtifact) :
    CachedPayload :=
  { body := p.body, statusCode := p.statusCode, headers := p.headers,
    cachedAt := now, buildId := buildId }

/-- `response.headers?.['content-type']?.includes('text/html')`. -/
def isPrefixL : List Char → List Char → Bool
  | [], _ => true
  | _ :: _, [] => false
  | a :: as, b :: bs => a == b && isPrefixL as bs

def containsSub (sub : List Char) : List Char → Bool
  | [] => sub.isEmpty
  | c :: rest => isPrefixL sub (c :: rest) || containsSub sub rest

def isHtmlResponse (r : RenderResponse) : Bool :=
  match r.headers with
  | none => false
  | some hs =>
    match hs.lookup "content-type" with
    | none => false
    | some ct => containsSub "text/html".toList ct.toList

/-- The observable effect of the `render:response` hook: the (at most one)
cache write it schedules via `event.waitUntil(storage.setItem ...)`, and the
state of the `_cachedPayloadResponse` context slot afterwards. -/
structure GateWriteEffect where
  write : Option (String × CachedPayload)
  stashedAfter : Option StashedArtifact
deriving DecidableEq

/-- `!response.statusCode || response.statusCode >= 400` (part_000 line 115):
the status is JS-falsy (absent or `0`) or an error status. -/
def shouldSkipStatus : Option Nat → Bool
  | none => true
  | some n => n == 0 || decide (400 ≤ n)

/-- The `render:response` hook (part_000 lines 113-144).  The persisted status
for a data-only response is `response.statusCode ?? 200` (line 126). -/
def renderResponse (buildId : String) (now : Int) (event : GateEvent)
    (response : RenderResponse) : GateWriteEffect :=
  if shouldSkipStatus response.statusCode then
    { write := none, stashedAfter := event.stashed }
  else if isPayloadUrl event.path then
    match response.body with
    | .str b =>
      { write := some (getCacheKey buildId (getRouteFromPayloadUrl event.path),
          cachePayloadEntry buildId now
            { body := b, statusCode := response.statusCode.getD 200,
              headers := payloadHeaders }),
        stashedAfter := event.stashed }
    | .nonString => { write := none, stashedAfter := event.stashed }
  else if isHtmlResponse response && isISRRoute event then
    match event.stashed with
    | some art =>
      { write := some (getCacheKey buildId (htmlRoutePath event.path),
          cachePayloadEntry buildId now art),
        stashedAfter := none }
    | none => { write := none, stashedAfter := event.stashed }
  else { write := none, stashedAfter := event.stashed }

/-! ## Payload Serializer — `app:rendered` hook (part_003 lines 20-61)

`devalue.stringify` is an external collaborator; it is modelled as a parameter
`stringify : ExternalPayload α → ρ → Option String`, where `none` models a
thrown serialization error (caught by the hook's `try`/`catch`), `α` is the
type of payload data values and `ρ` the type of the reducer table. -/

/-- The object `{ data, prerenderedAt }` built at part_003 lines 34-37, the
exact argument handed to `stringify`. -/
structure ExternalPayload (α : Type) where
  data : List (String × α)
  prerenderedAt : Option Int
deriving DecidableEq

/-- `ssrContext.payload`: its `error` truthiness, its `data` object (absent or
a keyed map), and `prerenderedAt`. -/
structure SSRPayload (α : Type) where
  error : Bool
  data : Option (List (String × α))
  prerenderedAt : Option Int
deriving DecidableEq

/-- The parts of `ssrContext` the hook reads.  `hasEvent` models
`ssrContext.event` being present (part_003 lines 43-44). -/
structure SSRContext (α ρ : Type) where
  noSSR : Bool
  error : Bool
  payload : Option (SSRPayload α)
  payloadReducers : Option ρ
  hasEvent : Bool
deriving DecidableEq

/-- `ssrContext.payload?.error` truthiness. -/
def payloadError {α ρ : Type} (ctx : SSRContext α ρ) : Bool :=
  match ctx.payload with
  | some p => p.error
  | none => false

/-- The `app:rendered` hook body (part_003 lines 20-61): returns the artifact
written to `event.context._cachedPayloadResponse`, or `none` when nothing is
stashed (guard failed, serialization threw, or no event).  The function is
total: a serialization failure is swallowed and never fails the render. -/
def appRendered {α ρ : Type} (emptyReducers : ρ)
    (stringify : ExternalPayload α → ρ → Option String)
    (ctx : SSRContext α ρ) : Option StashedArtifact :=
  if ctx.noSSR || ctx.error || payloadError ctx then none
  else
    match ctx.payload with
    | none => none
    | some p =>
      match p.data with
      | none => none
      | some d =>
        if d.length = 0 then none
        else
          match stringify { data := d, prerenderedAt := p.prerenderedAt }
              (ctx.payloadReducers.getD emptyReducers) with
          | none => none
          | some b =>
            if ctx.hasEvent then
              some { body := b, statusCode := 200, headers := payloadHeaders }
            else none

/-! ## Concrete instances used by witnesses -/

/-- A concrete cache entry written at time 0 under build `"B"`. -/
def entryW : CachedPayload :=
  { body := "body", statusCode := 200, headers := payloadHeaders,
    cachedAt := 0, buildId := "B" }

/-- A concrete cache entry written at time 0 under build `"B1"`. -/
def entryW1 : CachedPayload :=
  { body := "body", statusCode := 200, headers := payloadHeaders,
    cachedAt := 0, buildId := "B1" }

/-- A concrete store holding `entryW` at key `"B:/a"`. -/
def lookupW : String → LookupResult :=
  fun k => if k = "B:/a" then .ok (some entryW) else .ok none

/-- A concrete store holding `entryW1` at key `"B:/a"` (an entry written under
another build, surfaced at this build's key). -/
def lookupW1 : String → LookupResult :=
  fun k => if k = "B:/a" then .ok (some entryW1) else .ok none

/-- A concrete store whose reads always throw. -/
def lookupErr : String → LookupResult :=
  fun _ => .err

/-- A concrete rendered response standing for the output of the full render
pipeline. -/
def renderW : SynthResponse :=
  { body := "rendered", statusCode := 200, statusMessage := "OK", headers := [] }

/-! ## Claims -/

/-- **C1**: for a data-only lookup where the entry exists and its `buildId`
matches, the entry is served iff `now - cachedAt ≤ 2 × TTL` (TTL = 60 s,
times in milliseconds): the staleness check is the only remaining gate. -/
theorem claim1_staleness_boundary (buildId : String) (now : Int) (path : String)
    (lookup : String → LookupResult) (e : CachedPayload)
    (hp : isPayloadUrl path = true)
    (hl : lookup (getCacheKey buildId (getRouteFromPayloadUrl path)) = .ok (some e))
    (hb : e.buildId = buildId) :
    (renderBefore buildId now path lookup).isSome = true ↔
      now - e.cachedAt ≤ 2 * PAYLOAD_CACHE_TTL * 1000 := by
  unfold renderBefore
  rw [hp, hl]
  simp only [if_true, hb, ne_eq, not_true_eq_false, if_false]
  unfold PAYLOAD_CACHE_STALE_TTL PAYLOAD_CACHE_TTL
  split_ifs with h
  · simp only [Option.isSome_none, Bool.false_eq_true, false_iff]
    omega
  · simp only [Option.isSome_some, true_iff]
    omega

/-- Witness for C1: under build `"B"`, the entry cached at time 0 is served at
`now = 61000` ms (age 61 s, one second past the nominal TTL) and is not served
at `now = 121000` ms (age 121 s, past 2 × TTL). -/
theorem claim1_staleness_boundary_witness :
    (renderBefore "B" 61000 "/a/_payload.json" lookupW).isSome = true ∧
    ¬ (renderBefore "B" 121000 "/a/_payload.json" lookupW).isSome = true :=
  ⟨(claim1_staleness_boundary "B" 61000 "/a/_payload.json" lookupW entryW
      (by decide) (by decide) rfl).mpr (by decide),
   fun h =>
     absurd ((claim1_staleness_boundary "B" 121000 "/a/_payload.json" lookupW entryW
       (by decide) (by decide) rfl).mp h) (by decide)⟩

/-- **C2**: a cache entry whose `buildId` differs from the running build is
never served, regardless of its age (`now` is universally quantified): the
request falls through to a normal render. -/
theorem claim2_build_isolation (buildId : String) (now : Int) (path : String)
    (lookup : String → LookupResult) (e : CachedPayload) (render : SynthResponse)
    (hp : isPayloadUrl path = true)
    (hl : lookup (getCacheKey buildId (getRouteFromPayloadUrl path)) = .ok (some e))
    (hb : e.buildId ≠ buildId) :
    handleDataRequest buildId now path lookup render = (render, true) := by
  unfold handleDataRequest renderBefore
  rw [hp, hl]
  simp [hb]

/-- Witness for C2: an entry written under build `"B1"` and found at the
running build `"B"`'s key (age 0) is not served; the render runs. -/
theorem claim2_build_isolation_witness :
    handleDataRequest "B" 0 "/a/_payload.json" lookupW1 renderW = (renderW, true) :=
  claim2_build_isolation "B" 0 "/a/_payload.json" lookupW1 entryW1 renderW
    (by decide) (by decide) (by decide)

/-- **C4**: on a valid cache hit (entry found, matching build, within the
grace window) the delivered response is exactly the synthesized
`{body := e.body, statusCode := e.statusCode, headers := e.headers}` (with
status message `"OK"`), and the render pipeline does not run. -/
theorem claim4_hit_synthesized_response (buildId : String) (now : Int)
    (path : String) (lookup : String → LookupResult) (e : CachedPayload)
    (render : SynthResponse)
    (hp : isPayloadUrl path = true)
    (hl : lookup (getCacheKey buildId (getRouteFromPayloadUrl path)) = .ok (some e))
    (hb : e.buildId = buildId)
    (hfresh : now - e.cachedAt ≤ PAYLOAD_CACHE_STALE_TTL * 1000) :
    handleDataRequest buildId now path lookup render =
      ({ body := e.body, statusCode := e.statusCode, statusMessage := "OK",
         headers := e.headers }, false) := by
  unfold handleDataRequest renderBefore
  rw [hp, hl]
  simp only [if_true, hb, ne_eq, not_true_eq_false, if_false]
  rw [if_neg (by omega)]

/-- Witness for C4: a fresh hit (age 5 s) returns the cached body with the
cached status and headers, and the render pipeline is skipped. -/
theorem claim4_hit_synthesized_response_witness :
    handleDataRequest "B" 5000 "/a/_payload.json" lookupW renderW =
      ({ body := entryW.body, statusCode := entryW.statusCode,
         statusMessage := "OK", headers := entryW.headers }, false) :=
  claim4_hit_synthesized_response "B" 5000 "/a/_payload.json" lookupW entryW renderW
    (by decide) (by decide) rfl (by decide)

/-- **C8**: if the cache lookup throws, the request proceeds to a normal
render and the thrown error is not surfaced: the delivered response is the
render pipeline's own response. -/
theorem claim8_lookup_error_degrades_to_render (buildId : String) (now : Int)
    (path : String) (lookup : String → LookupResult) (render : SynthResponse)
    (hp : isPayloadUrl path = true)
    (hl : lookup (getCacheKey buildId (getRouteFromPayloadUrl path)) = .err) :
    handleDataRequest buildId now path lookup render = (render, true) := by
  unfold handleDataRequest renderBefore
  rw [hp, hl]
  simp

/-- Witness for C8: with a store whose reads always throw, the data-only
request renders normally. -/
theorem claim8_lookup_error_degrades_to_render_witness :
    handleDataRequest "B" 0 "/a/_payload.json" lookupErr renderW = (renderW, true) :=
  claim8_lookup_error_degrades_to_render "B" 0 "/a/_payload.json" lookupErr renderW
    (by decide) rfl

/-- A concrete data-only request event with nothing stashed. -/
def eventPayloadW : GateEvent :=
  { path := "/a/_payload.json", isr := false, cache := false, stashed := none }

/-- A concrete error response (status 500). -/
def responseErrW : RenderResponse :=
  { statusCode := some 500, body := .str "error page", headers := none }

/-- A concrete successful data-only response with a string body. -/
def responseStrW : RenderResponse :=
  { statusCode := some 200, body := .str "data", headers := none }

/-- A concrete successful response with a non-string body. -/
def responseNonStrW : RenderResponse :=
  { statusCode := some 200, body := .nonString, headers := none }

/-- **C3**: for every request, if the response has no status code or a status
`≥ 400`, the `render:response` hook schedules no cache write at all. -/
theorem claim3_no_caching_of_errors (buildId : String) (now : Int)
    (event : GateEvent) (response : RenderResponse)
    (h : response.statusCode = none ∨ ∃ n, response.statusCode = some n ∧ 400 ≤ n) :
    (renderResponse buildId now event response).write = none := by
  have hskip : shouldSkipStatus response.statusCode = true := by
    rcases h with h | ⟨n, hn, h4⟩
    · rw [h]; rfl
    · rw [hn]; simp [shouldSkipStatus]; omega
  unfold renderResponse
  rw [hskip]
  simp

/-- Witness for C3: a 500 response on a data-only request produces no write. -/
theorem claim3_no_caching_of_errors_witness :
    (renderResponse "B" 0 eventPayloadW responseErrW).write = none :=
  claim3_no_caching_of_errors "B" 0 eventPayloadW responseErrW
    (Or.inr ⟨500, rfl, by decide⟩)

/-- **C6**: on a data-only request with a successful (truthy, `< 400`) status:
a string body is persisted as a CacheEntry carrying that body, the response's
status, and the fixed content-type and provenance headers, under the cache key
derived from the request path; a non-string body persists nothing (and the
hook, a total function, raises nothing). -/
theorem claim6_payload_response_cached (buildId : String) (now : Int)
    (event : GateEvent) (response : RenderResponse) (n : Nat)
    (hp : isPayloadUrl event.path = true)
    (hsc : response.statusCode = some n) (hn0 : n ≠ 0) (hn4 : n < 400) :
    (∀ b, response.body = .str b →
      renderResponse buildId now event response =
        { write := some (getCacheKey buildId (getRouteFromPayloadUrl event.path),
            cachePayloadEntry buildId now
              { body := b, statusCode := n, headers := payloadHeaders }),
          stashedAfter := event.stashed }) ∧
    (response.body = .nonString →
      renderResponse buildId now event response =
        { write := none, stashedAfter := event.stashed }) := by
  have hskip : shouldSkipStatus response.statusCode = false := by
    rw [hsc]; simp [shouldSkipStatus]; omega
  refine ⟨fun b hb => ?_, fun hb => ?_⟩ <;>
    (unfold renderResponse; rw [hskip, hb, hsc]; simp [hp])

/-- Witness for C6: a 200 data-only response with string body `"data"` is
persisted under its route's key; the same response with a non-string body is
not. -/
theorem claim6_payload_response_cached_witness :
    (renderResponse "B" 7 eventPayloadW responseStrW =
      { write := some (getCacheKey "B" (getRouteFromPayloadUrl eventPayloadW.path),
          cachePayloadEntry "B" 7
            { body := "data", statusCode := 200, headers := payloadHeaders }),
        stashedAfter := eventPayloadW.stashed }) ∧
    (renderResponse "B" 7 eventPayloadW responseNonStrW =
      { write := none, stashedAfter := eventPayloadW.stashed }) :=
  ⟨(claim6_payload_response_cached "B" 7 eventPayloadW responseStrW 200
      (by decide) rfl (by decide) (by decide)).1 "data" rfl,
   (claim6_payload_response_cached "B" 7 eventPayloadW responseNonStrW 200
      (by decide) rfl (by decide) (by decide)).2 rfl⟩

/-- **C9**: when the HTML branch consumes a stashed artifact (successful
response, HTML content type, ISR/cache route, artifact present), the hook both
persists the entry built from the artifact and clears the
`_cachedPayloadResponse` slot. -/
theorem claim9_artifact_cleared_after_consumption (buildId : String) (now : Int)
    (event : GateEvent) (response : RenderResponse) (n : Nat)
    (art : StashedArtifact)
    (hsc : response.statusCode = some n) (hn0 : n ≠ 0) (hn4 : n < 400)
    (hnp : isPayloadUrl event.path = false)
    (hhtml : isHtmlResponse response = true)
    (hisr : isISRRoute event = true)
    (hart : event.stashed = some art) :
    renderResponse buildId now event response =
      { write := some (getCacheKey buildId (htmlRoutePath event.path),
          cachePayloadEntry buildId now art),
        stashedAfter := none } := by
  have hskip : shouldSkipStatus response.statusCode = false := by
    rw [hsc]; simp [shouldSkipStatus]; omega
  unfold renderResponse
  rw [hskip]
  simp [hnp, hhtml, hisr, hart]

/-- A concrete stashed artifact. -/
def artW : StashedArtifact :=
  { body := "payload", statusCode := 200, headers := payloadHeaders }

/-- A concrete HTML request event on an ISR route with `artW` stashed. -/
def eventHtmlW : GateEvent :=
  { path := "/a/", isr := true, cache := false, stashed := some artW }

/-- A concrete successful HTML response. -/
def responseHtmlW : RenderResponse :=
  { statusCode := some 200, body := .str "<html>",
    headers := some [("content-type", "text/html;charset=utf-8")] }

/-- Witness for C9: after the HTML branch persists `artW`, the stashed slot is
`none`. -/
theorem claim9_artifact_cleared_after_consumption_witness :
    renderResponse "B" 9 eventHtmlW responseHtmlW =
      { write := some (getCacheKey "B" (htmlRoutePath eventHtmlW.path),
          cachePayloadEntry "B" 9 artW),
        stashedAfter := none } :=
  claim9_artifact_cleared_after_consumption "B" 9 eventHtmlW responseHtmlW 200 artW
    rfl (by decide) (by decide) (by decide) (by decide) (by decide) rfl

/-- **C7**: route-path derivation is query-insensitive and normalized:
`/a/b/_payload.json?x=1` and `/a/b/_payload.json` both derive `/a/b`;
deriving from `/` yields `/`; the HTML normalization maps `/a/b/` and `/a/b`
to the same `/a/b`, and keeps the root `/`. -/
theorem claim7_route_derivation :
    getRouteFromPayloadUrl "/a/b/_payload.json?x=1" = "/a/b" ∧
    getRouteFromPayloadUrl "/a/b/_payload.json" = "/a/b" ∧
    getRouteFromPayloadUrl "/" = "/" ∧
    htmlRoutePath "/a/b/" = "/a/b" ∧
    htmlRoutePath "/a/b" = "/a/b" ∧
    htmlRoutePath "/" = "/" := by decide

/-! ## Serializer claims -/

/-- Inversion helper: everything that must have held when the `app:rendered`
hook stashed an artifact, and the exact shape of that artifact. -/
theorem appRendered_some_inv {α ρ : Type} (emptyReducers : ρ)
    (stringify : ExternalPayload α → ρ → Option String)
    (ctx : SSRContext α ρ) (a : StashedArtifact)
    (h : appRendered emptyReducers stringify ctx = some a) :
    ctx.noSSR = false ∧ ctx.error = false ∧ ctx.hasEvent = true ∧
    ∃ p d, ctx.payload = some p ∧ p.error = false ∧ p.data = some d ∧
      0 < d.length ∧
      stringify { data := d, prerenderedAt := p.prerenderedAt }
        (ctx.payloadReducers.getD emptyReducers) = some a.body ∧
      a.statusCode = 200 ∧ a.headers = payloadHeaders := by
  unfold appRendered at h
  split at h
  · exact absurd h (by simp)
  next hguard =>
    simp only [Bool.or_eq_true, not_or, Bool.not_eq_true] at hguard
    obtain ⟨⟨hn, he⟩, hpe⟩ := hguard
    split at h
    · exact absurd h (by simp)
    next p hp =>
      split at h
      · exact absurd h (by simp)
      next d hd =>
        split at h
        · exact absurd h (by simp)
        next hlen =>
          split at h
          · exact absurd h (by simp)
          next b hb =>
            split at h
            next hev =>
              obtain rfl : StashedArtifact.mk b 200 payloadHeaders = a :=
                Option.some.inj h
              refine ⟨hn, he, hev, p, d, hp, ?_, hd, ?_, hb, rfl, rfl⟩
              · unfold payloadError at hpe
                rw [hp] at hpe
                exact hpe
              · omega
            · exact absurd h (by simp)

/-- **C5 (amended)**: with a request context present, the serializer stashes
an artifact iff SSR was not disabled, neither the pipeline nor the payload is
in an error state, the data payload has at least one key, and serialization of
exactly `{data, prerenderedAt}` under the reducer table succeeds; the stashed
artifact is then `{body := that serialization, statusCode := 200, headers :=
payloadHeaders}` (content type `application/json;charset=utf-8` plus the
`x-powered-by: Nuxt` provenance marker).  `appRendered` is a total function:
a serialization failure yields `none` and never fails the render. -/
theorem claim5_serializer_stash {α ρ : Type} (emptyReducers : ρ)
    (stringify : ExternalPayload α → ρ → Option String)
    (ctx : SSRContext α ρ) (hev : ctx.hasEvent = true) :
    ((appRendered emptyReducers stringify ctx).isSome = true ↔
      ctx.noSSR = false ∧ ctx.error = false ∧
      ∃ p d, ctx.payload = some p ∧ p.error = false ∧ p.data = some d ∧
        0 < d.length ∧
        (stringify { data := d, prerenderedAt := p.prerenderedAt }
          (ctx.payloadReducers.getD emptyReducers)).isSome = true) ∧
    ∀ a, appRendered emptyReducers stringify ctx = some a →
      ∃ p d b, ctx.payload = some p ∧ p.data = some d ∧
        stringify { data := d, prerenderedAt := p.prerenderedAt }
          (ctx.payloadReducers.getD emptyReducers) = some b ∧
        a = { body := b, statusCode := 200, headers := payloadHeaders } := by
  constructor
  · constructor
    · intro hs
      obtain ⟨a, ha⟩ := Option.isSome_iff_exists.mp hs
      obtain ⟨hn, he, -, p, d, hp, hpe, hd, hlen, hb, -, -⟩ :=
        appRendered_some_inv emptyReducers stringify ctx a ha
      exact ⟨hn, he, p, d, hp, hpe, hd, hlen, by rw [hb]; rfl⟩
    · rintro ⟨hn, he, p, d, hp, hpe, hd, hlen, hs⟩
      obtain ⟨b, hb⟩ := Option.isSome_iff_exists.mp hs
      have hguard : (ctx.noSSR || ctx.error || payloadError ctx) = false := by
        rw [hn, he]
        simp [payloadError, hp, hpe]
      unfold appRendered
      rw [hguard]
      simp [hp, hd, hlen.ne', hb, hev]
  · intro a ha
    obtain ⟨-, -, -, p, d, hp, -, hd, -, hb, h200, hhd⟩ :=
      appRendered_some_inv emptyReducers stringify ctx a ha
    refine ⟨p, d, a.body, hp, hd, hb, ?_⟩
    cases a
    simp only at h200 hhd ⊢
    rw [h200, hhd]

/-- A concrete serializer for witnesses: `devalue.stringify` standing in as a
constant serialization. -/
def stringifyW : ExternalPayload Nat → Unit → Option String :=
  fun _ _ => some "payload"

/-- A concrete SSR context with one data key and no error state. -/
def ssrCtxW : SSRContext Nat Unit :=
  { noSSR := false, error := false,
    payload := some { error := false, data := some [("k", 1)], prerenderedAt := none },
    payloadReducers := none, hasEvent := true }

/-- Counterexample for C5 as stated: on a concrete successful render the hook
stashes an artifact whose content-type header is the string
`"application/json;charset=utf-8"` (no space after the semicolon), which is a
different string from the claimed `"application/json; charset=utf-8"`. -/
theorem claim5_counterexample :
    appRendered () stringifyW ssrCtxW =
      some { body := "payload", statusCode := 200, headers := payloadHeaders } ∧
    payloadHeaders.lookup "content-type" = some "application/json;charset=utf-8" ∧
    (some "application/json;charset=utf-8" : Option String) ≠
      some "application/json; charset=utf-8" :=
  ⟨by decide, by decide, by decide⟩

/-- Witness for C5 (amended): the concrete context `ssrCtxW` satisfies all the
stash conditions, so an artifact is stashed. -/
theorem claim5_serializer_stash_witness :
    (appRendered () stringifyW ssrCtxW).isSome = true :=
  (claim5_serializer_stash () stringifyW ssrCtxW rfl).1.mpr
    ⟨rfl, rfl, { error := false, data := some [("k", 1)], prerenderedAt := none },
     [("k", 1)], rfl, rfl, rfl, by decide, by decide⟩

/-- **C10**: every CacheEntry persisted from a full-page HTML render carries
`statusCode = 200` and the fixed JSON headers — whatever (truthy, `< 400`)
status the HTML response itself had — because the serializer hardcodes 200 in
the stashed artifact; a later valid data-only hit on that entry therefore
replays status 200. -/
theorem claim10_html_entries_replay_200 {α ρ : Type} (emptyReducers : ρ)
    (stringify : ExternalPayload α → ρ → Option String)
    (ctx : SSRContext α ρ) (art : StashedArtifact)
    (buildId : String) (now now2 : Int) (event : GateEvent)
    (response : RenderResponse) (n : Nat) (path2 : String)
    (lookup : String → LookupResult)
    (hstash : appRendered emptyReducers stringify ctx = some art)
    (hsc : response.statusCode = some n) (hn0 : n ≠ 0) (hn4 : n < 400)
    (hnp : isPayloadUrl event.path = false)
    (hhtml : isHtmlResponse response = true)
    (hisr : isISRRoute event = true)
    (hart : event.stashed = some art)
    (hp2 : isPayloadUrl path2 = true)
    (hl2 : lookup (getCacheKey buildId (getRouteFromPayloadUrl path2)) =
      .ok (some (cachePayloadEntry buildId now art)))
    (hfresh : now2 - now ≤ PAYLOAD_CACHE_STALE_TTL * 1000) :
    (renderResponse buildId now event response).write =
      some (getCacheKey buildId (htmlRoutePath event.path),
        cachePayloadEntry buildId now art) ∧
    (cachePayloadEntry buildId now art).statusCode = 200 ∧
    (cachePayloadEntry buildId now art).headers = payloadHeaders ∧
    renderBefore buildId now2 path2 lookup =
      some { body := art.body, statusCode := 200, statusMessage := "OK",
             headers := art.headers } := by
  obtain ⟨-, -, -, p, d, -, -, -, -, -, h200, hhd⟩ :=
    appRendered_some_inv emptyReducers stringify ctx art hstash
  have hskip : shouldSkipStatus response.statusCode = false := by
    rw [hsc]; simp [shouldSkipStatus]; omega
  refine ⟨?_, h200, hhd, ?_⟩
  · unfold renderResponse
    rw [hskip]
    simp [hnp, hhtml, hisr, hart]
  · unfold renderBefore
    rw [hp2, hl2]
    simp only [if_true, cachePayloadEntry, ne_eq, not_true_eq_false, if_false]
    rw [if_neg (by omega), h200]

/-- A concrete later lookup: the store holds the entry persisted from the
HTML render of `eventHtmlW` at time 9 under key `"B:/a"`. -/
def lookupC10 : String → LookupResult :=
  fun k => if k = "B:/a" then .ok (some (cachePayloadEntry "B" 9 artW)) else .ok none

/-- Witness for C10: the artifact stashed by `ssrCtxW`'s render is persisted
with status 200 by the HTML render of `eventHtmlW`, and a data-only request
41 seconds later replays status 200. -/
theorem claim10_html_entries_replay_200_witness :
    (renderResponse "B" 9 eventHtmlW responseHtmlW).write =
      some (getCacheKey "B" (htmlRoutePath eventHtmlW.path),
        cachePayloadEntry "B" 9 artW) ∧
    (cachePayloadEntry "B" 9 artW).statusCode = 200 ∧
    (cachePayloadEntry "B" 9 artW).headers = payloadHeaders ∧
    renderBefore "B" 50000 "/a/_payload.json" lookupC10 =
      some { body := artW.body, statusCode := 200, statusMessage := "OK",
             headers := artW.headers } :=
  claim10_html_entries_replay_200 () stringifyW ssrCtxW artW "B" 9 50000
    eventHtmlW responseHtmlW 200 "/a/_payload.json" lookupC10
    (by decide) rfl (by decide) (by decide) (by decide) (by decide) (by decide)
    rfl (by decide) (by decide) (by decide)

end PayloadCache
